import Mathlib

set_option maxRecDepth 100000

/-
Verification of the back-end refresh logic of housing-insights
(src/back_end/app.py) against its natural-language specification.

The embedding models the two refresh entry points of app.py:

  * make_table (app.py lines 104-132): the manual, password-gated,
    single-table load endpoint;
  * auto_load_tables (app.py lines 134-151): the scheduled daily job,
    registered with the cron scheduler for every day at hour 0, which
    loads crime, permit and then builds the zone_facts table.

External collaborators are modelled as follows.  Each ETL loader
(ETL.load_crime_data, ..., ETL.make_zone_facts) is an opaque capability
that, given the shared engine, returns a boolean; a run is therefore
parametrised by an outcome function assigning each loader its boolean
result for this run.  The side effects that matter to the spec - which
loaders get invoked, and what is handed to send_mail - are recorded as
an ordered trace of events.  get_credentials is modelled by passing the
configured password in as a parameter, and datetime.datetime.now by
passing the formatted timestamp in as a string.
-/

namespace HousingInsights

/-- The ETL loader functions imported by app.py (module ETL). -/
inductive EtlFn
  | load_acs_data
  | load_crime_data
  | load_permit_data
  | load_project_data
  | load_subsidy_data
  | make_zone_facts
deriving DecidableEq, Repr

/-- An observable side effect of a run: a loader invoked against the
engine, or a message handed to send_mail (the Notifier). -/
inductive Event
  | load (f : EtlFn)
  | mail (msg : String)
deriving DecidableEq, Repr

/-- The table_loaders registry of app.py lines 45-52: a fixed mapping
from table identifier to its ETL loader. -/
def table_loaders : List (String × EtlFn) :=
  [ ("acs", EtlFn.load_acs_data)
  , ("crime", EtlFn.load_crime_data)
  , ("permit", EtlFn.load_permit_data)
  , ("project", EtlFn.load_project_data)
  , ("subsidy", EtlFn.load_subsidy_data)
  , ("zone_facts", EtlFn.make_zone_facts) ]

/-- The table names printed by the invalid-table response of make_table
(the li items of app.py lines 118-121). -/
def listed_tables : List String := ["crime", "acs", "permit", "project"]

/-- The body returned by make_table for an unknown table name
(app.py lines 114-123), built from the listed items. -/
def invalid_table_page : String :=
  "\n            <h1>Invalid Table Name: Please Try Again</h1>\n            <h2>Tables Are:</h2>\n            <ul>\n"
    ++ String.join (listed_tables.map (fun t => "                <li>" ++ t ++ "</li>\n"))
    ++ "            </ul>\n               "

/-- The body returned by make_table when the loader reports failure
(app.py lines 128-132). -/
def unable_to_load_page (table_name : String) : String :=
  "\n            <h1>Unable to load " ++ table_name
    ++ " table.</h1>\n            <h2>The source data may be unavailable.</h2>\n            <h2>Housing insights will load the backup data.</h2>\n           "

/-- make_table (app.py lines 104-132): the manual data-loading endpoint.
Parameters: the two route arguments, the configured password (the value
of get_credentials applied to load-data-password), and the outcome each
loader would report this run.  Returns the event trace (loader
invocations and mails, in order) together with the response body.

The source first compares the password, then tests membership of
table_name in table_loaders.keys() and afterwards indexes
table_loaders.get; here both steps are the single lookup, whose none
case is exactly non-membership. -/
def make_table (table_name password load_data_password : String)
    (outcome : EtlFn → Bool) : List Event × String :=
  if password ≠ load_data_password then
    ([Event.mail "Invalid data loading attempted."],
     "<h1>Invalid Password: Please Try Again</h1>")
  else
    match table_loaders.lookup table_name with
    | none => ([], invalid_table_page)
    | some loader =>
      if outcome loader then
        ([Event.load loader, Event.mail ("Loaded " ++ table_name ++ " table.")],
         "<h1>Success! Loaded " ++ table_name ++ " table.</h1>")
      else
        ([Event.load loader], unable_to_load_page table_name)

/-- auto_load_tables (app.py lines 134-151): the scheduled daily job.
It invokes the crime loader, the permit loader and the zone_facts
builder unconditionally in that order, accumulating one report line per
table, and finally hands the accumulated message to send_mail.  The
timestamp interpolated into the header is passed in as now. -/
def auto_load_tables (now : String) (outcome : EtlFn → Bool) : List Event :=
  let message := "Data update for " ++ now ++ "\n"
  let message := message ++
    (if outcome EtlFn.load_crime_data then "Crime table load successful.\n"
     else "Crime table load not successful. Using backup.\n")
  let message := message ++
    (if outcome EtlFn.load_permit_data then "Permit table load successful.\n"
     else "Permit table load not successful. Using backup.\n")
  let message := message ++
    (if outcome EtlFn.make_zone_facts then "Zone facts table creation successful.\n"
     else "Zone facts table creation not successful. Using backup.\n")
  [ Event.load EtlFn.load_crime_data
  , Event.load EtlFn.load_permit_data
  , Event.load EtlFn.make_zone_facts
  , Event.mail message ]

/-- The loaders invoked during a trace, in order. -/
def loadEvents (es : List Event) : List EtlFn :=
  es.filterMap fun e =>
    match e with
    | Event.load f => some f
    | Event.mail _ => none

/-- The messages handed to send_mail during a trace, in order. -/
def mailMessages (es : List Event) : List String :=
  es.filterMap fun e =>
    match e with
    | Event.load _ => none
    | Event.mail msg => some msg

/-- The report line the scheduled job appends for one table, as a
function of that table's own outcome (wording of app.py lines 139-150).
Only the three tables of the scheduled run are given lines. -/
def resultLine : EtlFn → Bool → String
  | EtlFn.load_crime_data, true => "Crime table load successful.\n"
  | EtlFn.load_crime_data, false => "Crime table load not successful. Using backup.\n"
  | EtlFn.load_permit_data, true => "Permit table load successful.\n"
  | EtlFn.load_permit_data, false => "Permit table load not successful. Using backup.\n"
  | EtlFn.make_zone_facts, true => "Zone facts table creation successful.\n"
  | EtlFn.make_zone_facts, false => "Zone facts table creation not successful. Using backup.\n"
  | _, _ => ""

/-- How a run ends: normally, or by an uncaught loader exception
escaping the function (no try/except surrounds any loader call in
app.py). -/
inductive RunExit
  | normal
  | raised (cause : String)
deriving DecidableEq, Repr

/-- auto_load_tables under a loader model that may raise: each loader
either returns a boolean (Except.ok) or raises with a cause
(Except.error).  The source has no exception handler, so in Python a
raise aborts the function at that point: the translation records the
trace performed so far and the exit status.  A loader that raises still
appears in the trace (it was invoked), but no later loader runs and no
mail is sent. -/
def auto_load_tables_exc (now : String) (outcome : EtlFn → Except String Bool) :
    List Event × RunExit :=
  match outcome EtlFn.load_crime_data with
  | Except.error c => ([Event.load EtlFn.load_crime_data], RunExit.raised c)
  | Except.ok b1 =>
    match outcome EtlFn.load_permit_data with
    | Except.error c =>
        ([Event.load EtlFn.load_crime_data, Event.load EtlFn.load_permit_data],
         RunExit.raised c)
    | Except.ok b2 =>
      match outcome EtlFn.make_zone_facts with
      | Except.error c =>
          ([ Event.load EtlFn.load_crime_data
           , Event.load EtlFn.load_permit_data
           , Event.load EtlFn.make_zone_facts ], RunExit.raised c)
      | Except.ok b3 =>
          (auto_load_tables now fun f =>
            match f with
            | EtlFn.load_crime_data => b1
            | EtlFn.load_permit_data => b2
            | EtlFn.make_zone_facts => b3
            | _ => false, RunExit.normal)

/-- Substring matching at the head: subMatch p t is true when p is an
initial segment of t. -/
def subMatch : List Char → List Char → Bool
  | [], _ => true
  | _ :: _, [] => false
  | a :: as, b :: bs => a == b && subMatch as bs

/-- hasSubAux p t is true when p occurs contiguously somewhere in t. -/
def hasSubAux (p : List Char) : List Char → Bool
  | [] => subMatch p []
  | c :: cs => subMatch p (c :: cs) || hasSubAux p cs

/-- hasSub s pat is true when pat occurs as a contiguous substring of s. -/
def hasSub (s pat : String) : Bool :=
  hasSubAux pat.toList s.toList

/-- The outcome assignment of the reference scenario: the crime load
fails, every other loader succeeds. -/
def staleOutcome : EtlFn → Bool
  | EtlFn.load_crime_data => false
  | _ => true

/-- The report the scheduled job mails in the reference scenario
(crime fails, permit succeeds, zone facts succeeds) with timestamp
string "today". -/
def staleReportMsg : String :=
  "Data update for today\nCrime table load not successful. Using backup.\nPermit table load successful.\nZone facts table creation successful.\n"

/-- A loader model in which the crime loader raises and every other
loader returns success. -/
def excOutcome : EtlFn → Except String Bool
  | EtlFn.load_crime_data => Except.error "upstream connection failure"
  | _ => Except.ok true

/-- Claim C1: a manual trigger with a wrong secret returns the
unauthorized page, mails exactly the invalid-attempt notification, and
invokes zero loaders. -/
theorem manual_trigger_wrong_secret (table_name password load_data_password : String)
    (outcome : EtlFn → Bool) (h : password ≠ load_data_password) :
    make_table table_name password load_data_password outcome =
      ([Event.mail "Invalid data loading attempted."],
       "<h1>Invalid Password: Please Try Again</h1>") ∧
    loadEvents (make_table table_name password load_data_password outcome).1 = [] := by
  refine ⟨by simp [make_table, h], by simp [make_table, h, loadEvents]⟩

/-- Witness for C1 at a concrete wrong password. -/
theorem manual_trigger_wrong_secret_witness :
    make_table "crime" "wrongpw" "goodpw" (fun _ => true) =
      ([Event.mail "Invalid data loading attempted."],
       "<h1>Invalid Password: Please Try Again</h1>") ∧
    loadEvents (make_table "crime" "wrongpw" "goodpw" (fun _ => true)).1 = [] :=
  manual_trigger_wrong_secret "crime" "wrongpw" "goodpw" (fun _ => true) (by decide)

/-- Claim C2, counterexample: the unknown-table response does not list
all valid table identifiers: subsidy and zone_facts are registered in
table_loaders but absent from the listing page. -/
theorem unknown_table_listing_incomplete :
    make_table "not_a_table" "pw" "pw" (fun _ => true) = ([], invalid_table_page) ∧
    "subsidy" ∈ table_loaders.map Prod.fst ∧
    "zone_facts" ∈ table_loaders.map Prod.fst ∧
    hasSub invalid_table_page "subsidy" = false ∧
    hasSub invalid_table_page "zone_facts" = false := by
  refine ⟨by decide, by decide, by decide, by decide, by decide⟩

/-- Claim C2, amended: with the correct secret and an unregistered
table identifier, the trigger invokes zero loaders, mails nothing, and
returns a listing page naming some of the valid identifiers (crime,
acs, permit, project) but not all of them. -/
theorem unknown_table_partial_listing (table_name password load_data_password : String)
    (outcome : EtlFn → Bool) (hp : password = load_data_password)
    (ht : table_loaders.lookup table_name = none) :
    make_table table_name password load_data_password outcome = ([], invalid_table_page) ∧
    listed_tables.all (fun t => (table_loaders.map Prod.fst).contains t) = true ∧
    (table_loaders.map Prod.fst).all (fun t => listed_tables.contains t) = false := by
  subst hp
  refine ⟨by simp [make_table, ht], by decide, by decide⟩

/-- Witness for the amended C2 at a concrete unknown table. -/
theorem unknown_table_partial_listing_witness :
    make_table "not_a_table" "goodpw" "goodpw" (fun _ => true) = ([], invalid_table_page) ∧
    listed_tables.all (fun t => (table_loaders.map Prod.fst).contains t) = true ∧
    (table_loaders.map Prod.fst).all (fun t => listed_tables.contains t) = false :=
  unknown_table_partial_listing "not_a_table" "goodpw" "goodpw" (fun _ => true) rfl (by decide)

/-- Claim C3, counterexample: a manual load whose loader reports
failure returns the backup page but mails nothing, so the trigger does
not notify on both outcomes. -/
theorem manual_failure_sends_no_mail :
    make_table "crime" "pw" "pw" (fun _ => false) =
      ([Event.load EtlFn.load_crime_data], unable_to_load_page "crime") ∧
    mailMessages (make_table "crime" "pw" "pw" (fun _ => false)).1 = [] := by
  refine ⟨by decide, by decide⟩

/-- Claim C3, amended: with the correct secret and a registered table,
the trigger invokes exactly that loader once and returns the success
page iff the loader succeeded; it mails a one-line report only on
success, and mails nothing on failure. -/
theorem manual_trigger_registered_table (table_name password load_data_password : String)
    (outcome : EtlFn → Bool) (loader : EtlFn) (hp : password = load_data_password)
    (ht : table_loaders.lookup table_name = some loader) :
    make_table table_name password load_data_password outcome =
      (if outcome loader then
        ([Event.load loader, Event.mail ("Loaded " ++ table_name ++ " table.")],
         "<h1>Success! Loaded " ++ table_name ++ " table.</h1>")
       else ([Event.load loader], unable_to_load_page table_name)) ∧
    loadEvents (make_table table_name password load_data_password outcome).1 = [loader] ∧
    mailMessages (make_table table_name password load_data_password outcome).1 =
      (if outcome loader then ["Loaded " ++ table_name ++ " table."] else []) := by
  subst hp
  refine ⟨by simp [make_table, ht], ?_, ?_⟩ <;>
    cases h : outcome loader <;> simp [make_table, ht, loadEvents, mailMessages, h]

/-- Witness for the amended C3 at the crime table with a succeeding
loader. -/
theorem manual_trigger_registered_table_witness :
    make_table "crime" "goodpw" "goodpw" (fun _ => true) =
      (if (fun (_ : EtlFn) => true) EtlFn.load_crime_data then
        ([Event.load EtlFn.load_crime_data, Event.mail ("Loaded " ++ "crime" ++ " table.")],
         "<h1>Success! Loaded " ++ "crime" ++ " table.</h1>")
       else ([Event.load EtlFn.load_crime_data], unable_to_load_page "crime")) ∧
    loadEvents (make_table "crime" "goodpw" "goodpw" (fun _ => true)).1 = [EtlFn.load_crime_data] ∧
    mailMessages (make_table "crime" "goodpw" "goodpw" (fun _ => true)).1 =
      (if (fun (_ : EtlFn) => true) EtlFn.load_crime_data then ["Loaded " ++ "crime" ++ " table."] else []) :=
  manual_trigger_registered_table "crime" "goodpw" "goodpw" (fun _ => true)
    EtlFn.load_crime_data rfl (by decide)

/-- Claim C4: every scheduled run invokes exactly the loaders of the
registered identifiers crime, permit, zone_facts, once each, in that
order, the base tables before the derived aggregate. -/
theorem scheduled_run_loader_sequence (now : String) (outcome : EtlFn → Bool) :
    loadEvents (auto_load_tables now outcome) =
      [EtlFn.load_crime_data, EtlFn.load_permit_data, EtlFn.make_zone_facts] ∧
    table_loaders.lookup "crime" = some EtlFn.load_crime_data ∧
    table_loaders.lookup "permit" = some EtlFn.load_permit_data ∧
    table_loaders.lookup "zone_facts" = some EtlFn.make_zone_facts := by
  refine ⟨rfl, by decide, by decide, by decide⟩

/-- Claim C5: for every combination of per-loader outcomes, the
scheduled run invokes all three loaders in order - a failure never
prevents a later invocation - and reports one line per table, each line
determined by the outcome of its own loader alone. -/
theorem run_no_early_abort (now : String) (outcome : EtlFn → Bool) :
    auto_load_tables now outcome =
      [ Event.load EtlFn.load_crime_data
      , Event.load EtlFn.load_permit_data
      , Event.load EtlFn.make_zone_facts
      , Event.mail ("Data update for " ++ now ++ "\n"
          ++ resultLine EtlFn.load_crime_data (outcome EtlFn.load_crime_data)
          ++ resultLine EtlFn.load_permit_data (outcome EtlFn.load_permit_data)
          ++ resultLine EtlFn.make_zone_facts (outcome EtlFn.make_zone_facts)) ] := by
  cases h1 : outcome EtlFn.load_crime_data <;>
    cases h2 : outcome EtlFn.load_permit_data <;>
      cases h3 : outcome EtlFn.make_zone_facts <;>
        simp [auto_load_tables, resultLine, h1, h2, h3]

/-- Claim C6, counterexample: in the scenario where the crime
dependency fails and the zone facts build succeeds, the aggregate
loader is still invoked, but the report contains no
built-from-stale-dependency marking anywhere. -/
theorem aggregate_not_marked_stale :
    Event.load EtlFn.make_zone_facts ∈ auto_load_tables "today" staleOutcome ∧
    mailMessages (auto_load_tables "today" staleOutcome) = [staleReportMsg] ∧
    hasSub staleReportMsg "built from stale dependency" = false := by
  refine ⟨by decide, by decide, by decide⟩

/-- Claim C6, amended: when a dependency of the aggregate fails in the
same run, the aggregate loader is still invoked and its report line
reflects only its own outcome, carrying no stale-dependency marking. -/
theorem aggregate_runs_despite_stale_dependency (now : String) (outcome : EtlFn → Bool)
    (h : outcome EtlFn.load_crime_data = false ∨ outcome EtlFn.load_permit_data = false) :
    Event.load EtlFn.make_zone_facts ∈ auto_load_tables now outcome ∧
    Event.mail ("Data update for " ++ now ++ "\n"
        ++ resultLine EtlFn.load_crime_data (outcome EtlFn.load_crime_data)
        ++ resultLine EtlFn.load_permit_data (outcome EtlFn.load_permit_data)
        ++ resultLine EtlFn.make_zone_facts (outcome EtlFn.make_zone_facts))
      ∈ auto_load_tables now outcome ∧
    hasSub (resultLine EtlFn.make_zone_facts (outcome EtlFn.make_zone_facts))
      "built from stale dependency" = false := by
  refine ⟨by simp [auto_load_tables], ?_, ?_⟩
  · cases h1 : outcome EtlFn.load_crime_data <;>
      cases h2 : outcome EtlFn.load_permit_data <;>
        cases h3 : outcome EtlFn.make_zone_facts <;>
          simp [auto_load_tables, resultLine, h1, h2, h3]
  · cases h3 : outcome EtlFn.make_zone_facts <;> decide

/-- Witness for the amended C6 in the reference scenario. -/
theorem aggregate_runs_despite_stale_dependency_witness :
    Event.load EtlFn.make_zone_facts ∈ auto_load_tables "today" staleOutcome ∧
    Event.mail ("Data update for " ++ "today" ++ "\n"
        ++ resultLine EtlFn.load_crime_data (staleOutcome EtlFn.load_crime_data)
        ++ resultLine EtlFn.load_permit_data (staleOutcome EtlFn.load_permit_data)
        ++ resultLine EtlFn.make_zone_facts (staleOutcome EtlFn.make_zone_facts))
      ∈ auto_load_tables "today" staleOutcome ∧
    hasSub (resultLine EtlFn.make_zone_facts (staleOutcome EtlFn.make_zone_facts))
      "built from stale dependency" = false :=
  aggregate_runs_despite_stale_dependency "today" staleOutcome (Or.inl rfl)

/-- Claim C7, counterexample: in the scenario crime fails, permit
succeeds, aggregate succeeds, the single mailed report marks crime with
using-backup wording and marks the aggregate as plainly successful -
the word stale appears nowhere in it. -/
theorem scenario_report_lacks_stale_marking :
    mailMessages (auto_load_tables "today" staleOutcome) = [staleReportMsg] ∧
    hasSub staleReportMsg "Crime table load not successful. Using backup.\n" = true ∧
    hasSub staleReportMsg "Zone facts table creation successful.\n" = true ∧
    hasSub staleReportMsg "stale" = false := by
  refine ⟨by decide, by decide, by decide, by decide⟩

/-- Claim C7, amended: every scheduled run mails exactly one report,
containing one line per table in run order, failed tables worded with
using-backup and successful tables worded successful; the line of a
successful aggregate is the plain success wording with no stale
marking. -/
theorem scheduled_report_once_per_table (now : String) (outcome : EtlFn → Bool) :
    mailMessages (auto_load_tables now outcome) =
      ["Data update for " ++ now ++ "\n"
        ++ resultLine EtlFn.load_crime_data (outcome EtlFn.load_crime_data)
        ++ resultLine EtlFn.load_permit_data (outcome EtlFn.load_permit_data)
        ++ resultLine EtlFn.make_zone_facts (outcome EtlFn.make_zone_facts)] ∧
    resultLine EtlFn.make_zone_facts true = "Zone facts table creation successful.\n" ∧
    hasSub (resultLine EtlFn.make_zone_facts true) "stale" = false := by
  refine ⟨?_, rfl, by decide⟩
  cases h1 : outcome EtlFn.load_crime_data <;>
    cases h2 : outcome EtlFn.load_permit_data <;>
      cases h3 : outcome EtlFn.make_zone_facts <;>
        simp [auto_load_tables, mailMessages, resultLine, h1, h2, h3]

/-- Claim C8, counterexample: when the crime loader raises, the
exception escapes the run uncaught; the permit and zone facts loaders
are never invoked and nothing is mailed, instead of the failure being
recorded and the run continuing. -/
theorem loader_exception_aborts_run :
    auto_load_tables_exc "today" excOutcome =
      ([Event.load EtlFn.load_crime_data], RunExit.raised "upstream connection failure") ∧
    Event.load EtlFn.load_permit_data ∉ (auto_load_tables_exc "today" excOutcome).1 ∧
    mailMessages (auto_load_tables_exc "today" excOutcome).1 = [] := by
  refine ⟨by decide, by decide, by decide⟩

/-- Claim C8, amended: a loader exception is not caught at the call
boundary: whichever of the three scheduled loaders raises first, the
run aborts there with the exception propagating - the raising loader is
the last event of the trace, later loaders are never invoked, and no
mail is sent. -/
theorem loader_exception_propagates (now c : String) (outcome : EtlFn → Except String Bool) :
    (outcome EtlFn.load_crime_data = Except.error c →
      auto_load_tables_exc now outcome =
        ([Event.load EtlFn.load_crime_data], RunExit.raised c)) ∧
    (∀ b1, outcome EtlFn.load_crime_data = Except.ok b1 →
      outcome EtlFn.load_permit_data = Except.error c →
      auto_load_tables_exc now outcome =
        ([Event.load EtlFn.load_crime_data, Event.load EtlFn.load_permit_data],
         RunExit.raised c)) ∧
    (∀ b1 b2, outcome EtlFn.load_crime_data = Except.ok b1 →
      outcome EtlFn.load_permit_data = Except.ok b2 →
      outcome EtlFn.make_zone_facts = Except.error c →
      auto_load_tables_exc now outcome =
        ([ Event.load EtlFn.load_crime_data, Event.load EtlFn.load_permit_data
         , Event.load EtlFn.make_zone_facts ], RunExit.raised c)) := by
  refine ⟨fun h1 => by simp [auto_load_tables_exc, h1],
          fun b1 h1 h2 => by simp [auto_load_tables_exc, h1, h2],
          fun b1 b2 h1 h2 h3 => by simp [auto_load_tables_exc, h1, h2, h3]⟩

/-- Witness for the amended C8: concrete raising crime loader. -/
theorem loader_exception_propagates_witness :
    auto_load_tables_exc "today" excOutcome =
      ([Event.load EtlFn.load_crime_data], RunExit.raised "upstream connection failure") :=
  (loader_exception_propagates "today" "upstream connection failure" excOutcome).1 rfl

/-- Claim C10: when the secret is wrong and the table identifier is
also unknown, the response is the unauthorized page - not the
unknown-table listing - and the invalid-attempt mail is sent: the
credential check runs before the identifier check. -/
theorem credential_checked_before_table (table_name password load_data_password : String)
    (outcome : EtlFn → Bool) (hp : password ≠ load_data_password)
    (ht : table_loaders.lookup table_name = none) :
    (make_table table_name password load_data_password outcome).2 =
      "<h1>Invalid Password: Please Try Again</h1>" ∧
    (make_table table_name password load_data_password outcome).2 ≠ invalid_table_page ∧
    Event.mail "Invalid data loading attempted." ∈
      (make_table table_name password load_data_password outcome).1 := by
  have e : make_table table_name password load_data_password outcome =
      ([Event.mail "Invalid data loading attempted."],
       "<h1>Invalid Password: Please Try Again</h1>") := by
    simp [make_table, hp]
  refine ⟨by rw [e], by rw [e]; decide, by rw [e]; simp⟩

/-- Witness for C10 at a concrete wrong password and unknown table. -/
theorem credential_checked_before_table_witness :
    (make_table "not_a_table" "wrongpw" "goodpw" (fun _ => true)).2 =
      "<h1>Invalid Password: Please Try Again</h1>" ∧
    (make_table "not_a_table" "wrongpw" "goodpw" (fun _ => true)).2 ≠ invalid_table_page ∧
    Event.mail "Invalid data loading attempted." ∈
      (make_table "not_a_table" "wrongpw" "goodpw" (fun _ => true)).1 :=
  credential_checked_before_table "not_a_table" "wrongpw" "goodpw" (fun _ => true)
    (by decide) (by decide)

end HousingInsights
